import Mathlib

/-!
Shallow embedding of `WebSocketManager` (src/EventRecorder.js, third segment,
lines 527-630).  The manager's closure variables (`lockReconnect`, `retry`,
`ws`, `isClosed`, the two heartbeat timeout handles and the pending reconnect
timeout) become fields of an explicit state; the transport callbacks
(`onopen`, `onerror`, `onclose`, `onmessage`), the timer callbacks and the
public `close()` become cases of a single step function driven by an event
type.  Frames sent on the transport are recorded as structured outputs with an
exact wire rendering (`Frame.wire`) copied from the strings the source builds.
Handler promises are modelled by a list of in-flight calls: `Ev.resolve i r`
is the resolution of the i-th in-flight call with result `r` (the `.then`
continuation at source line 567), `Ev.reject i` its rejection (for which the
source attaches no continuation at all).
-/

namespace WSManager

/-- A frame the manager sends, identified structurally.  `idJson` and
`resultJson` hold the JSON text of the opaque request identifier and of the
handler result payload. -/
inductive Frame
  | intro (agent : String)
  | ping
  | toolsResult (idJson : String) (agent : String) (resultJson : String)
deriving DecidableEq, Repr

/-- One character of JSON string escaping as performed by `JSON.stringify` on
the quote and backslash characters. -/
def escChar (c : Char) : String :=
  if c = '"' then "\\\"" else if c = '\\' then "\\\\" else String.singleton c

/-- JSON string escaping (quote and backslash) as `JSON.stringify` applies to
the `agent` field of the tool response (source line 574). -/
def jsonEscape (s : String) : String :=
  String.join (s.data.map escChar)

/-- Exact bytes put on the wire for each frame.
* `intro`: the template literal at source line 557, including its two spaces
  after the colons and no escaping of the interpolated agent name.
* `ping`: the literal at source line 601.
* `toolsResult`: `JSON.stringify(answerResp)` at source line 574 - insertion
  key order `id, msg_type, agent, func_result`, no whitespace, the string
  field `agent` escaped. -/
def Frame.wire : Frame → String
  | .intro a => "\x7b\"msg_type\": \"first_conn\",\"agent\": \"" ++ a ++ "\"\x7d"
  | .ping => "ping"
  | .toolsResult i a r =>
      "\x7b\"id\":" ++ i ++ ",\"msg_type\":\"tools_result\",\"agent\":\"" ++
        jsonEscape a ++ "\",\"func_result\":" ++ r ++ "\x7d"

/-- A parsed inbound envelope (`JSON.parse(event.data)` at source line 565):
the fields the dispatcher reads.  `id` and `params` carry the JSON text of
the respective payloads. -/
structure Envelope where
  msg_type : String
  id : String
  func_name : String
  params : String
deriving DecidableEq, Repr

/-- An inbound frame after the `event.data === 'pong'` test at source line
563: either the bare pong sentinel or a structured envelope. -/
inductive InMsg
  | pongMsg
  | envMsg (e : Envelope)
deriving DecidableEq, Repr

/-- Events driving the manager: transport signals, inbound frames, promise
settlements of in-flight handler calls, timer firings, and the public
`close()` call. -/
inductive Ev
  | sigOpen
  | sigError
  | sigClose
  | message (m : InMsg)
  | resolve (i : Nat) (resultJson : String)
  | reject (i : Nat)
  | reconnectFire
  | probeFire
  | serverFire
  | callClose
deriving DecidableEq, Repr

/-- Observable actions of a step: sending a frame (`ws.send`), calling
`ws.close()` on the transport, performing a connection attempt
(`createWebSocket`), invoking a registered handler with the request's
params, and a synchronous TypeError escaping the handler or timer callback
uncaught (thrown by `ws.send`/`ws.close` on a null `ws`, or by treating an
inherited `Object.prototype` property as a handler). -/
inductive Out
  | send (f : Frame)
  | wsClose
  | connect
  | invoke (funcName : String) (paramsJson : String)
  | uncaughtTypeError
deriving DecidableEq, Repr

/-- The property names of `Object.prototype`.  `funcMap` is a plain object,
so the JS `in` operator at source line 566 finds these on its prototype
chain even when they are not own keys of the map. -/
def protoNames : List String :=
  ["constructor", "hasOwnProperty", "isPrototypeOf", "propertyIsEnumerable",
    "toLocaleString", "toString", "valueOf", "__proto__", "__defineGetter__",
    "__defineSetter__", "__lookupGetter__", "__lookupSetter__"]

/-- Constructor configuration `WebSocketManager(wsUrl, agentName, funcMap,
heartCheckTime = 59000)`: `funcNames` is the key set of `funcMap` (the only
aspect of the map the dispatcher's membership test reads). -/
structure Config where
  agentName : String
  funcNames : List String
  heartCheckTime : Nat := 59000
deriving DecidableEq, Repr

/-- The manager's mutable closure state.
* `lockReconnect`, `retry`, `isClosed`: the closure variables of the same
  names (source lines 529-532).
* `wsLive`: whether `ws` is non-null.
* `pendingReconnects`: number of live `setTimeout` callbacks scheduled by
  `reconnect` (source line 584) and not yet fired.
* `probeTimer` / `serverTimer`: the armed duration of `heartCheck.timeoutObj`
  / `heartCheck.serverTimeoutObj`, `none` when cleared.
* `pending`: identifiers (JSON text) of handler calls whose promises are
  still unsettled, in invocation order. -/
structure MState where
  lockReconnect : Bool
  retry : Nat
  wsLive : Bool
  isClosed : Bool
  pendingReconnects : Nat
  probeTimer : Option Nat
  serverTimer : Option Nat
  pending : List String
deriving DecidableEq, Repr

/-- State right after the constructor body ran `createWebSocket(wsUrl)`
(source line 609): `ws` assigned, all counters zero, no timers armed. -/
def initState : MState :=
  { lockReconnect := false, retry := 0, wsLive := true, isClosed := false
    pendingReconnects := 0, probeTimer := none, serverTimer := none
    pending := [] }

/-- The constructor's own `createWebSocket` call is the first connection
attempt. -/
def initOuts : List Out := [Out.connect]

/-- `reconnect` (source lines 580-588): increment `retry` first, then bail out
if the lock is held or the incremented counter exceeds 10; otherwise take the
lock and schedule a `createWebSocket` after the 2000 ms delay.  Note the
source never consults `isClosed` here. -/
def reconnect (s : MState) : MState :=
  let s1 := { s with retry := s.retry + 1 }
  if s1.lockReconnect ∨ 10 < s1.retry then s1
  else { s1 with lockReconnect := true, pendingReconnects := s1.pendingReconnects + 1 }

/-- `heartCheck.reset()` (source lines 594-598): clear both timeouts. -/
def heartReset (s : MState) : MState :=
  { s with probeTimer := none, serverTimer := none }

/-- `heartCheck.start()` (source lines 599-606): arm the probe timeout for
the configured idle timeout. -/
def heartStart (cfg : Config) (s : MState) : MState :=
  { s with probeTimer := some cfg.heartCheckTime }

/-- `ws.onopen` (source lines 555-559): `heartCheck.reset().start()`, then
send the introduction template literal. -/
def onOpen (cfg : Config) (s : MState) : MState × List Out :=
  (heartStart cfg (heartReset s), [Out.send (Frame.intro cfg.agentName)])

/-- `ws.onmessage` (source lines 560-577): reset and restart the heartbeat on
every frame, return early on the bare `pong`, and otherwise dispatch.  The
guard `data.msg_type === "tools" && data.func_name in funcMap` uses the JS
`in` operator, which consults the prototype chain: it is true when
`func_name` is an own key of `funcMap` or a property name of
`Object.prototype`.  An own key (own keys shadow the prototype) selects the
registered handler, which is invoked with `data.params` (recording the
in-flight call).  An inherited name selects an `Object.prototype` member
instead: `funcMap[func_name](data.params)` then throws a TypeError
synchronously (`__proto__` is not callable; for the callable members the
call returns a non-promise and the `.then` access throws), so nothing is
sent and the exception leaves the handler uncaught.  In every other case
nothing further happens. -/
def onMessage (cfg : Config) (s : MState) (m : InMsg) : MState × List Out :=
  let s1 := heartStart cfg (heartReset s)
  match m with
  | .pongMsg => (s1, [])
  | .envMsg e =>
      if e.msg_type = "tools" ∧ (e.func_name ∈ cfg.funcNames ∨ e.func_name ∈ protoNames) then
        if e.func_name ∈ cfg.funcNames then
          ({ s1 with pending := s1.pending ++ [e.id] }, [Out.invoke e.func_name e.params])
        else
          (s1, [Out.uncaughtTypeError])
      else (s1, [])

/-- The `.then` continuation (source lines 567-575): when the i-th in-flight
call resolves with `func_result`, build `answerResp` echoing the request id
and send its `JSON.stringify`.  A resolution index with no in-flight call is
a no-op. -/
def onResolve (cfg : Config) (s : MState) (i : Nat) (r : String) : MState × List Out :=
  match s.pending[i]? with
  | some idJson =>
      ({ s with pending := s.pending.eraseIdx i },
        [Out.send (Frame.toolsResult idJson cfg.agentName r)])
  | none => (s, [])

/-- Rejection of the i-th in-flight call: the source attaches no rejection
continuation (no second argument to `.then`, no `.catch` at source lines
567-575), so nothing runs and nothing is sent; the call is simply no longer
in flight. -/
def onReject (s : MState) (i : Nat) : MState × List Out :=
  ({ s with pending := s.pending.eraseIdx i }, [])

/-- The `setTimeout` callback inside `reconnect` (source lines 584-587):
`createWebSocket(url)` (a fresh transport is assigned to `ws`), then release
the lock. -/
def onReconnectFire (s : MState) : MState × List Out :=
  if s.pendingReconnects = 0 then (s, [])
  else
    let s1 := { s with pendingReconnects := s.pendingReconnects - 1 }
    ({ s1 with lockReconnect := false, wsLive := true }, [Out.connect])

/-- The probe timeout callback (source lines 600-605): `ws.send("ping")`,
then arm the server timeout for the same configured duration.  When `ws` is
null (after `close()`), `ws.send` throws a TypeError: nothing is sent and
the throw prevents the inner `setTimeout` from ever arming the force-close
timer. -/
def onProbeFire (cfg : Config) (s : MState) : MState × List Out :=
  match s.probeTimer with
  | none => (s, [])
  | some _ =>
      if s.wsLive then
        ({ s with probeTimer := none, serverTimer := some cfg.heartCheckTime },
          [Out.send Frame.ping])
      else
        ({ s with probeTimer := none }, [Out.uncaughtTypeError])

/-- The server timeout callback (source lines 602-604): force `ws.close()`. -/
def onServerFire (s : MState) : MState × List Out :=
  match s.serverTimer with
  | none => (s, [])
  | some _ => ({ s with serverTimer := none }, [Out.wsClose])

/-- `close()` (source lines 611-617): set `isClosed`, and if `ws` is non-null
call `ws.close()` and null it.  Nothing else is touched: in particular the
heartbeat timeouts and any scheduled reconnect stay armed. -/
def close (s : MState) : MState × List Out :=
  ({ s with isClosed := true, wsLive := false },
    if s.wsLive then [Out.wsClose] else [])

/-- One event-loop task of the manager, returning the successor state and the
observable actions of the task, in order. -/
def step (cfg : Config) (s : MState) : Ev → MState × List Out
  | .sigOpen => onOpen cfg s
  | .sigError => (reconnect s, [])
  | .sigClose => (reconnect s, [])
  | .message m => onMessage cfg s m
  | .resolve i r => onResolve cfg s i r
  | .reject i => onReject s i
  | .reconnectFire => onReconnectFire s
  | .probeFire => onProbeFire cfg s
  | .serverFire => onServerFire s
  | .callClose => close s

/-- Run a list of events from a given state, concatenating the outputs. -/
def runFrom (cfg : Config) (s : MState) : List Ev → MState × List Out
  | [] => (s, [])
  | e :: evs =>
      let p := step cfg s e
      let q := runFrom cfg p.1 evs
      (q.1, p.2 ++ q.2)

/-- Run a list of events from construction; the constructor's initial
connection attempt heads the outputs. -/
def run (cfg : Config) (evs : List Ev) : MState × List Out :=
  ((runFrom cfg initState evs).1, initOuts ++ (runFrom cfg initState evs).2)

/-- Number of connection attempts (`createWebSocket` executions) among the
outputs. -/
def countConnect (outs : List Out) : Nat :=
  outs.countP fun o => match o with | Out.connect => true | _ => false

/-- A concrete configuration used by witnesses and counterexamples. -/
def cfgA : Config := { agentName := "A1", funcNames := ["ping_tool"], heartCheckTime := 59000 }

/-- `n` repetitions of "the current connection attempt fails (one close
signal); the 2000 ms reconnect timer then fires": the environment schedule in
which every attempt fails and each failure produces a single signal. -/
def failTrace : Nat → List Ev
  | 0 => []
  | n + 1 => Ev.sigClose :: Ev.reconnectFire :: failTrace n

/-- The reconnect budget is spent (ten or more failure signals counted) and
no reconnect callback is scheduled. -/
def Exhausted (s : MState) : Prop :=
  10 ≤ s.retry ∧ s.pendingReconnects = 0

/-- Invariant maintained by the reentrancy guard: at most one reconnect
callback is scheduled at any time, and while one is scheduled the lock is
held. -/
def ReconnInv (s : MState) : Prop :=
  s.pendingReconnects ≤ 1 ∧ (1 ≤ s.pendingReconnects → s.lockReconnect = true)

/-- Rendering of a flat JSON object with string values, inserting `sp` after
each colon (JSON is whitespace-insensitive at that position, so every choice
of `sp` made of blanks renders the same object). -/
def renderFlatObj (sp : String) (kvs : List (String × String)) : String :=
  "\x7b" ++
    String.intercalate ","
      (kvs.map fun kv => "\"" ++ kv.1 ++ "\":" ++ sp ++ "\"" ++ kv.2 ++ "\"") ++
    "\x7d"

/-- The introduction frame's fields as the spec's wire format lists them:
msg_type first_conn, then the agent identity. -/
def specIntroFields (agent : String) : List (String × String) :=
  [("msg_type", "first_conn"), ("agent", agent)]

/-- A state with the probe timer armed, as after any inbound frame. -/
def stProbe : MState := { initState with probeTimer := some 59000 }

/-- A state with one in-flight handler call, for request identifier `7`. -/
def stPending : MState := { initState with pending := ["7"] }

/-- An envelope whose handler name is not registered in `cfgA`. -/
def envUnknown : Envelope :=
  { msg_type := "tools", id := "8", func_name := "nope", params := "\x7b\x7d" }

/-- An envelope whose handler name is unregistered but is a property of
`Object.prototype`, so the JS `in` test at source line 566 admits it. -/
def envToString : Envelope :=
  { msg_type := "tools", id := "9", func_name := "toString", params := "\x7b\x7d" }

theorem reconnect_retry (s : MState) : (reconnect s).retry = s.retry + 1 := by
  simp only [reconnect]
  split <;> rfl

theorem reconnect_blocked (s : MState)
    (h : s.lockReconnect = true ∨ 10 < s.retry + 1) :
    reconnect s = { s with retry := s.retry + 1 } := by
  simp only [reconnect]
  exact if_pos h

theorem reconnect_scheduling (s : MState) (hl : s.lockReconnect = false)
    (hr : s.retry + 1 ≤ 10) :
    reconnect s =
      { { s with retry := s.retry + 1 } with
          lockReconnect := true, pendingReconnects := s.pendingReconnects + 1 } := by
  simp only [reconnect]
  rw [if_neg]
  rintro (h | h)
  · rw [hl] at h
    cases h
  · omega

theorem runFrom_append (cfg : Config) (s : MState) (l1 l2 : List Ev) :
    runFrom cfg s (l1 ++ l2) =
      ((runFrom cfg (runFrom cfg s l1).1 l2).1,
        (runFrom cfg s l1).2 ++ (runFrom cfg (runFrom cfg s l1).1 l2).2) := by
  induction l1 generalizing s with
  | nil => simp [runFrom]
  | cons e l ih => simp [runFrom, ih]

theorem countConnect_append (o1 o2 : List Out) :
    countConnect (o1 ++ o2) = countConnect o1 + countConnect o2 := by
  simp [countConnect, List.countP_append]

theorem exhausted_step (cfg : Config) (s : MState) (e : Ev) (h : Exhausted s) :
    Exhausted (step cfg s e).1 ∧ countConnect (step cfg s e).2 = 0 := by
  obtain ⟨h1, h2⟩ := h
  cases e with
  | sigOpen => exact ⟨⟨h1, h2⟩, rfl⟩
  | sigError =>
      have hb := reconnect_blocked s (Or.inr (by omega))
      refine ⟨?_, rfl⟩
      show Exhausted (reconnect s)
      rw [hb]
      refine ⟨?_, h2⟩
      show 10 ≤ s.retry + 1
      omega
  | sigClose =>
      have hb := reconnect_blocked s (Or.inr (by omega))
      refine ⟨?_, rfl⟩
      show Exhausted (reconnect s)
      rw [hb]
      refine ⟨?_, h2⟩
      show 10 ≤ s.retry + 1
      omega
  | message m =>
      cases m with
      | pongMsg => exact ⟨⟨h1, h2⟩, rfl⟩
      | envMsg e =>
          by_cases hc1 : e.msg_type = "tools" ∧
            (e.func_name ∈ cfg.funcNames ∨ e.func_name ∈ protoNames)
          · by_cases hc2 : e.func_name ∈ cfg.funcNames
            · simp only [step, onMessage, if_pos hc1, if_pos hc2]
              exact ⟨⟨h1, h2⟩, rfl⟩
            · simp only [step, onMessage, if_pos hc1, if_neg hc2]
              exact ⟨⟨h1, h2⟩, rfl⟩
          · simp only [step, onMessage, if_neg hc1]
            exact ⟨⟨h1, h2⟩, rfl⟩
  | resolve i r =>
      cases hp : s.pending[i]? with
      | none =>
          simp only [step, onResolve, hp]
          exact ⟨⟨h1, h2⟩, rfl⟩
      | some idJ =>
          simp only [step, onResolve, hp]
          exact ⟨⟨h1, h2⟩, rfl⟩
  | reject i => exact ⟨⟨h1, h2⟩, rfl⟩
  | reconnectFire =>
      simp only [step, onReconnectFire, if_pos h2]
      exact ⟨⟨h1, h2⟩, rfl⟩
  | probeFire =>
      cases hp : s.probeTimer with
      | none =>
          simp only [step, onProbeFire, hp]
          exact ⟨⟨h1, h2⟩, rfl⟩
      | some d =>
          by_cases hw : s.wsLive = true
          · simp only [step, onProbeFire, hp, if_pos hw]
            exact ⟨⟨h1, h2⟩, rfl⟩
          · simp only [step, onProbeFire, hp, if_neg hw]
            exact ⟨⟨h1, h2⟩, rfl⟩
  | serverFire =>
      cases hp : s.serverTimer with
      | none =>
          simp only [step, onServerFire, hp]
          exact ⟨⟨h1, h2⟩, rfl⟩
      | some d =>
          simp only [step, onServerFire, hp]
          exact ⟨⟨h1, h2⟩, rfl⟩
  | callClose =>
      cases hw : s.wsLive with
      | true =>
          simp only [step, close, hw]
          exact ⟨⟨h1, h2⟩, rfl⟩
      | false =>
          simp only [step, close, hw]
          exact ⟨⟨h1, h2⟩, rfl⟩

theorem exhausted_runFrom (cfg : Config) (s : MState) (evs : List Ev)
    (h : Exhausted s) :
    countConnect (runFrom cfg s evs).2 = 0 ∧ Exhausted (runFrom cfg s evs).1 := by
  induction evs generalizing s with
  | nil => exact ⟨rfl, h⟩
  | cons e l ih =>
      obtain ⟨he, hc⟩ := exhausted_step cfg s e h
      obtain ⟨ih1, ih2⟩ := ih (step cfg s e).1 he
      exact ⟨by simp [runFrom, countConnect_append, hc, ih1], by simpa [runFrom] using ih2⟩

/-- A tool response frame appears among a step's outputs only when the event
is the resolution of an in-flight call: the echoed identifier is the resolved
call's, the agent is the configured identity, and the payload is the
handler's result. -/
theorem toolsResult_only_from_resolve (cfg : Config) (s : MState) (ev : Ev)
    (idJson a r : String)
    (h : Out.send (Frame.toolsResult idJson a r) ∈ (step cfg s ev).2) :
    ∃ j rr, ev = Ev.resolve j rr ∧ s.pending[j]? = some idJson ∧
      a = cfg.agentName ∧ r = rr := by
  cases ev with
  | sigOpen => simp [step, onOpen] at h
  | sigError => simp [step] at h
  | sigClose => simp [step] at h
  | message m =>
      cases m with
      | pongMsg => simp [step, onMessage] at h
      | envMsg e =>
          by_cases hc1 : e.msg_type = "tools" ∧
            (e.func_name ∈ cfg.funcNames ∨ e.func_name ∈ protoNames)
          · by_cases hc2 : e.func_name ∈ cfg.funcNames
            · simp [step, onMessage, hc1, hc2] at h
            · have hp3 : e.func_name ∈ protoNames := hc1.2.resolve_left hc2
              simp [step, onMessage, hc1, hc2, hp3] at h
          · simp [step, onMessage, hc1] at h
  | resolve j rr =>
      cases hp : s.pending[j]? with
      | none => simp [step, onResolve, hp] at h
      | some idJ =>
          simp only [step, onResolve, hp, List.mem_singleton, Out.send.injEq,
            Frame.toolsResult.injEq] at h
          obtain ⟨hid, ha, hr⟩ := h
          exact ⟨j, rr, rfl, by rw [hid]; exact hp, ha, hr⟩
  | reject i => simp [step, onReject] at h
  | reconnectFire =>
      by_cases hz : s.pendingReconnects = 0
      · simp [step, onReconnectFire, hz] at h
      · simp [step, onReconnectFire, hz] at h
  | probeFire =>
      cases hp : s.probeTimer with
      | none => simp [step, onProbeFire, hp] at h
      | some d =>
          by_cases hw : s.wsLive = true
          · simp [step, onProbeFire, hp, hw] at h
          · simp [step, onProbeFire, hp, hw] at h
  | serverFire =>
      cases hp : s.serverTimer with
      | none => simp [step, onServerFire, hp] at h
      | some d => simp [step, onServerFire, hp] at h
  | callClose =>
      cases hw : s.wsLive with
      | true => simp [step, close, hw] at h
      | false => simp [step, close, hw] at h

/-- C1: the claim is right and the code is wrong.  `isClosed` is set at
source line 612, matching the claimed manually-closed flag, but it is never
read — in particular not by `reconnect` (source lines 580-588).  So after
`close()` the close signal of the released transport (which `ws.close()`
itself produces) schedules a reconnect, and when the 2000 ms timer fires a
new connection attempt is made: two attempts in total, the second after
`close()`. -/
theorem c1_reconnect_scheduled_after_close :
    (run cfgA [Ev.callClose, Ev.sigClose]).1.isClosed = true ∧
    (run cfgA [Ev.callClose, Ev.sigClose]).1.pendingReconnects = 1 ∧
    countConnect (run cfgA [Ev.callClose, Ev.sigClose, Ev.reconnectFire]).2 = 2 := by
  decide

/-- C2 counterexample: one failed attempt followed by a successful open
leaves the retry counter at 1, not 0 — `ws.onopen` (source lines 555-559)
starts the heartbeat and sends the introduction but never touches `retry`. -/
theorem c2_counterexample_open_keeps_retry :
    (run cfgA [Ev.sigError, Ev.sigOpen]).1.retry ≠ 0 := by
  decide

/-- C2 (amended): the retry counter is incremented on each failure signal
(error or close) and is monotone under every event — in particular a
successful transition to Open leaves it unchanged, so the reconnect budget is
never restored. -/
theorem c2_retry_incremented_never_reset (cfg : Config) (s : MState) (e : Ev) :
    (step cfg s Ev.sigOpen).1.retry = s.retry ∧
    (step cfg s Ev.sigError).1.retry = s.retry + 1 ∧
    (step cfg s Ev.sigClose).1.retry = s.retry + 1 ∧
    s.retry ≤ (step cfg s e).1.retry := by
  refine ⟨rfl, reconnect_retry s, reconnect_retry s, ?_⟩
  cases e with
  | sigOpen => exact Nat.le_refl _
  | sigError =>
      have := reconnect_retry s
      show s.retry ≤ (reconnect s).retry
      omega
  | sigClose =>
      have := reconnect_retry s
      show s.retry ≤ (reconnect s).retry
      omega
  | message m =>
      cases m with
      | pongMsg => exact Nat.le_refl _
      | envMsg ev =>
          by_cases hc1 : ev.msg_type = "tools" ∧
            (ev.func_name ∈ cfg.funcNames ∨ ev.func_name ∈ protoNames)
          · by_cases hc2 : ev.func_name ∈ cfg.funcNames
            · simp only [step, onMessage, if_pos hc1, if_pos hc2]
              exact Nat.le_refl _
            · simp only [step, onMessage, if_pos hc1, if_neg hc2]
              exact Nat.le_refl _
          · simp only [step, onMessage, if_neg hc1]
            exact Nat.le_refl _
  | resolve i r =>
      cases hp : s.pending[i]? with
      | none =>
          simp only [step, onResolve, hp]
          exact Nat.le_refl _
      | some idJ =>
          simp only [step, onResolve, hp]
          exact Nat.le_refl _
  | reject i => exact Nat.le_refl _
  | reconnectFire =>
      by_cases h2 : s.pendingReconnects = 0
      · simp only [step, onReconnectFire, if_pos h2]
        exact Nat.le_refl _
      · simp only [step, onReconnectFire, if_neg h2]
        exact Nat.le_refl _
  | probeFire =>
      cases hp : s.probeTimer with
      | none =>
          simp only [step, onProbeFire, hp]
          exact Nat.le_refl _
      | some d =>
          by_cases hw : s.wsLive = true
          · simp only [step, onProbeFire, hp, if_pos hw]
            exact Nat.le_refl _
          · simp only [step, onProbeFire, hp, if_neg hw]
            exact Nat.le_refl _
  | serverFire =>
      cases hp : s.serverTimer with
      | none =>
          simp only [step, onServerFire, hp]
          exact Nat.le_refl _
      | some d =>
          simp only [step, onServerFire, hp]
          exact Nat.le_refl _
  | callClose => exact Nat.le_refl _

/-- C3 counterexample: with every connection attempt failing and one failure
signal per attempt, eleven connection attempts are executed — failure #10
leaves the counter at 10, which is still within the cap, so attempt #11 is
made, contradicting the claim that it never is. -/
theorem c3_counterexample_attempt_eleven_is_made :
    countConnect (run cfgA (failTrace 10 ++ [Ev.sigClose])).2 = 11 := by
  decide

/-- C3 (amended): when every attempt fails, after exactly 11 consecutive
failed connection attempts (the constructor's initial one plus ten scheduled
retries) the manager stays disconnected indefinitely: eleven attempts were
made, and no continuation of the execution by any events whatsoever ever
produces a twelfth — the step function is total, so this exhausted state is a
silent terminal failure, not an exception. -/
theorem c3_after_eleven_failed_attempts_silent_forever (evs : List Ev) :
    countConnect (run cfgA (failTrace 10 ++ [Ev.sigClose])).2 = 11 ∧
    countConnect (run cfgA ((failTrace 10 ++ [Ev.sigClose]) ++ evs)).2 = 11 := by
  have base : countConnect (run cfgA (failTrace 10 ++ [Ev.sigClose])).2 = 11 := by decide
  refine ⟨base, ?_⟩
  have hex : Exhausted (runFrom cfgA initState (failTrace 10 ++ [Ev.sigClose])).1 :=
    ⟨by decide, by decide⟩
  have hsp := runFrom_append cfgA initState (failTrace 10 ++ [Ev.sigClose]) evs
  have h0 := exhausted_runFrom cfgA
    (runFrom cfgA initState (failTrace 10 ++ [Ev.sigClose])).1 evs hex
  simp only [run] at base ⊢
  rw [hsp]
  rw [countConnect_append] at base
  rw [countConnect_append, countConnect_append, h0.1]
  omega

/-- C7 counterexample: a successful open arms the probe timer; a subsequent
`close()` releases the transport but leaves that timer armed (source lines
611-617 never call `heartCheck.reset()`), so the timer still fires after
`close()` — refuting the claim that `close()` cancels the pending heartbeat
timers so that neither can subsequently fire — and its callback throws an
uncaught TypeError at `ws.send` on the nulled transport. -/
theorem c7_counterexample_probe_fires_after_close :
    (run cfgA [Ev.sigOpen, Ev.callClose]).1.probeTimer = some 59000 ∧
    (run cfgA [Ev.sigOpen, Ev.callClose]).1.wsLive = false ∧
    (run cfgA [Ev.sigOpen, Ev.callClose, Ev.probeFire]).2 =
      [Out.connect, Out.send (Frame.intro "A1"), Out.wsClose, Out.uncaughtTypeError] := by
  decide

/-- C7 (amended): `close()` sets the manually-closed flag and releases the
transport immediately, but cancels neither heartbeat timer: both stay armed
exactly as they were, and an armed probe timer still fires after `close()`,
whereupon its callback throws an uncaught TypeError at `ws.send` on the
nulled transport — it neither sends a probe nor arms the force-close
timer. -/
theorem c7_close_releases_transport_but_not_timers (cfg : Config) (s : MState)
    (d : Nat) (h : s.probeTimer = some d) :
    (close s).1.isClosed = true ∧
    (close s).1.wsLive = false ∧
    (close s).2 = (if s.wsLive then [Out.wsClose] else []) ∧
    (close s).1.probeTimer = s.probeTimer ∧
    (close s).1.serverTimer = s.serverTimer ∧
    (step cfg (close s).1 Ev.probeFire).2 = [Out.uncaughtTypeError] ∧
    (step cfg (close s).1 Ev.probeFire).1.serverTimer = s.serverTimer := by
  have h' : (close s).1.probeTimer = some d := h
  have hw : ¬ ((close s).1.wsLive = true) := Bool.false_ne_true
  refine ⟨rfl, rfl, rfl, rfl, rfl, ?_, ?_⟩
  · simp only [step, onProbeFire, h', if_neg hw]
  · simp only [step, onProbeFire, h', if_neg hw]
    rfl

/-- Witness for C7's amended theorem at the state `stProbe`. -/
theorem c7_close_releases_transport_but_not_timers_witness :
    stProbe.probeTimer = some 59000 ∧
    ((close stProbe).1.isClosed = true ∧
      (close stProbe).1.wsLive = false ∧
      (close stProbe).2 = (if stProbe.wsLive then [Out.wsClose] else []) ∧
      (close stProbe).1.probeTimer = stProbe.probeTimer ∧
      (close stProbe).1.serverTimer = stProbe.serverTimer ∧
      (step cfgA (close stProbe).1 Ev.probeFire).2 = [Out.uncaughtTypeError] ∧
      (step cfgA (close stProbe).1 Ev.probeFire).1.serverTimer = stProbe.serverTimer) :=
  ⟨rfl, c7_close_releases_transport_but_not_timers cfgA stProbe 59000 rfl⟩

/-- C6 counterexample: two failure signals for the same dead transport (an
error and a close) arriving before the 2000 ms delay elapses schedule a
single reconnect callback, not one each: only two connection attempts happen
in total (the constructor's and one reconnect), not the three the claim's
"exactly one reconnection attempt per failure signal" would give. -/
theorem c6_counterexample_second_signal_schedules_nothing :
    (run cfgA [Ev.sigError, Ev.sigClose]).1.pendingReconnects = 1 ∧
    countConnect
      (run cfgA [Ev.sigError, Ev.sigClose, Ev.reconnectFire, Ev.reconnectFire]).2 = 2 := by
  decide

/-- C6 (amended): at most one reconnection attempt is pending at any time.
The lock invariant (`pendingReconnects ≤ 1`, and the lock is held while one
is pending) holds initially and is preserved by every event; while the lock
is held a failure signal schedules nothing (it only increments the retry
counter); and a failure signal arriving with the lock free and the budget not
exceeded schedules exactly one attempt and takes the lock. -/
theorem c6_at_most_one_pending_reconnect (cfg : Config) (s : MState) (e : Ev)
    (h : ReconnInv s) :
    ReconnInv initState ∧
    ReconnInv (step cfg s e).1 ∧
    (s.lockReconnect = true →
      (step cfg s Ev.sigError).1.pendingReconnects = s.pendingReconnects ∧
      (step cfg s Ev.sigClose).1.pendingReconnects = s.pendingReconnects ∧
      (step cfg s Ev.sigError).1.retry = s.retry + 1) ∧
    (s.lockReconnect = false → s.retry + 1 ≤ 10 →
      (step cfg s Ev.sigError).1.pendingReconnects = s.pendingReconnects + 1 ∧
      (step cfg s Ev.sigError).1.lockReconnect = true) := by
  obtain ⟨h1, h2⟩ := h
  refine ⟨⟨by decide, fun hx => absurd hx (by decide)⟩, ?_, ?_, ?_⟩
  · cases e with
    | sigOpen => exact ⟨h1, h2⟩
    | sigError =>
        show ReconnInv (reconnect s)
        cases hl : s.lockReconnect with
        | true =>
            rw [reconnect_blocked s (Or.inl hl)]
            exact ⟨h1, fun _ => hl⟩
        | false =>
            by_cases hr : s.retry + 1 ≤ 10
            · rw [reconnect_scheduling s hl hr]
              have hz : s.pendingReconnects = 0 := by
                by_contra hc
                have := h2 (by omega)
                rw [hl] at this
                cases this
              refine ⟨?_, fun _ => rfl⟩
              show s.pendingReconnects + 1 ≤ 1
              omega
            · rw [reconnect_blocked s (Or.inr (by omega))]
              exact ⟨h1, h2⟩
    | sigClose =>
        show ReconnInv (reconnect s)
        cases hl : s.lockReconnect with
        | true =>
            rw [reconnect_blocked s (Or.inl hl)]
            exact ⟨h1, fun _ => hl⟩
        | false =>
            by_cases hr : s.retry + 1 ≤ 10
            · rw [reconnect_scheduling s hl hr]
              have hz : s.pendingReconnects = 0 := by
                by_contra hc
                have := h2 (by omega)
                rw [hl] at this
                cases this
              refine ⟨?_, fun _ => rfl⟩
              show s.pendingReconnects + 1 ≤ 1
              omega
            · rw [reconnect_blocked s (Or.inr (by omega))]
              exact ⟨h1, h2⟩
    | message m =>
        cases m with
        | pongMsg => exact ⟨h1, h2⟩
        | envMsg ev =>
            by_cases hc1 : ev.msg_type = "tools" ∧
              (ev.func_name ∈ cfg.funcNames ∨ ev.func_name ∈ protoNames)
            · by_cases hc2 : ev.func_name ∈ cfg.funcNames
              · simp only [step, onMessage, if_pos hc1, if_pos hc2]
                exact ⟨h1, h2⟩
              · simp only [step, onMessage, if_pos hc1, if_neg hc2]
                exact ⟨h1, h2⟩
            · simp only [step, onMessage, if_neg hc1]
              exact ⟨h1, h2⟩
    | resolve i r =>
        cases hp : s.pending[i]? with
        | none =>
            simp only [step, onResolve, hp]
            exact ⟨h1, h2⟩
        | some idJ =>
            simp only [step, onResolve, hp]
            exact ⟨h1, h2⟩
    | reject i => exact ⟨h1, h2⟩
    | reconnectFire =>
        by_cases hz : s.pendingReconnects = 0
        · simp only [step, onReconnectFire, if_pos hz]
          exact ⟨h1, h2⟩
        · simp only [step, onReconnectFire, if_neg hz]
          refine ⟨?_, ?_⟩
          · show s.pendingReconnects - 1 ≤ 1
            omega
          · intro hx
            have hx' : 1 ≤ s.pendingReconnects - 1 := hx
            exact absurd hx' (by omega)
    | probeFire =>
        cases hp : s.probeTimer with
        | none =>
            simp only [step, onProbeFire, hp]
            exact ⟨h1, h2⟩
        | some d =>
            by_cases hw : s.wsLive = true
            · simp only [step, onProbeFire, hp, if_pos hw]
              exact ⟨h1, h2⟩
            · simp only [step, onProbeFire, hp, if_neg hw]
              exact ⟨h1, h2⟩
    | serverFire =>
        cases hp : s.serverTimer with
        | none =>
            simp only [step, onServerFire, hp]
            exact ⟨h1, h2⟩
        | some d =>
            simp only [step, onServerFire, hp]
            exact ⟨h1, h2⟩
    | callClose => exact ⟨h1, h2⟩
  · intro hl
    have hb := reconnect_blocked s (Or.inl hl)
    refine ⟨?_, ?_, reconnect_retry s⟩
    · show (reconnect s).pendingReconnects = s.pendingReconnects
      rw [hb]
    · show (reconnect s).pendingReconnects = s.pendingReconnects
      rw [hb]
  · intro hl hr
    have hb := reconnect_scheduling s hl hr
    constructor
    · show (reconnect s).pendingReconnects = s.pendingReconnects + 1
      rw [hb]
    · show (reconnect s).lockReconnect = true
      rw [hb]

/-- Witness for C6's amended theorem at the initial state. -/
theorem c6_at_most_one_pending_reconnect_witness :
    ReconnInv initState ∧
    (ReconnInv initState ∧
      ReconnInv (step cfgA initState Ev.sigError).1 ∧
      (initState.lockReconnect = true →
        (step cfgA initState Ev.sigError).1.pendingReconnects = initState.pendingReconnects ∧
        (step cfgA initState Ev.sigClose).1.pendingReconnects = initState.pendingReconnects ∧
        (step cfgA initState Ev.sigError).1.retry = initState.retry + 1) ∧
      (initState.lockReconnect = false → initState.retry + 1 ≤ 10 →
        (step cfgA initState Ev.sigError).1.pendingReconnects = initState.pendingReconnects + 1 ∧
        (step cfgA initState Ev.sigError).1.lockReconnect = true)) :=
  ⟨⟨by decide, by intro h; exact absurd h (by decide)⟩,
    c6_at_most_one_pending_reconnect cfgA initState Ev.sigError
      ⟨by decide, by intro h; exact absurd h (by decide)⟩⟩

/-- C8: a transport-established signal makes the manager send exactly one
frame — the introduction frame carrying the configured agent identity, whose
wire bytes render precisely the JSON object with fields
msg_type=first_conn and agent=<agentName> (with one blank of
JSON-insignificant whitespace after each colon) — and start the heartbeat
monitor; and an introduction frame is output on no occasion other than an
open signal. -/
theorem c8_intro_frame_exactly_once_per_open (cfg : Config) (s s2 : MState)
    (ev : Ev) (a : String)
    (h : Out.send (Frame.intro a) ∈ (step cfg s2 ev).2) :
    (step cfg s Ev.sigOpen).2 = [Out.send (Frame.intro cfg.agentName)] ∧
    (step cfg s Ev.sigOpen).1.probeTimer = some cfg.heartCheckTime ∧
    (step cfg s Ev.sigOpen).1.serverTimer = none ∧
    (Frame.intro cfg.agentName).wire =
      renderFlatObj " " (specIntroFields cfg.agentName) ∧
    ev = Ev.sigOpen ∧ a = cfg.agentName := by
  refine ⟨rfl, rfl, rfl, ?_, ?_⟩
  · show "\x7b\"msg_type\": \"first_conn\",\"agent\": \"" ++ cfg.agentName ++ "\"\x7d" =
      "\x7b" ++ (("\"" ++ "msg_type" ++ "\":" ++ " " ++ "\"" ++ "first_conn" ++ "\"") ++ "," ++
        ("\"" ++ "agent" ++ "\":" ++ " " ++ "\"" ++ cfg.agentName ++ "\"")) ++ "\x7d"
    simp [← String.append_assoc]
    simp [String.append_assoc]
  · cases ev with
    | sigOpen =>
        simp only [step, onOpen, List.mem_singleton, Out.send.injEq,
          Frame.intro.injEq] at h
        exact ⟨rfl, h⟩
    | sigError => simp [step] at h
    | sigClose => simp [step] at h
    | message m =>
        cases m with
        | pongMsg => simp [step, onMessage] at h
        | envMsg e =>
            by_cases hc1 : e.msg_type = "tools" ∧
              (e.func_name ∈ cfg.funcNames ∨ e.func_name ∈ protoNames)
            · by_cases hc2 : e.func_name ∈ cfg.funcNames
              · simp [step, onMessage, hc1, hc2] at h
              · have hp3 : e.func_name ∈ protoNames := hc1.2.resolve_left hc2
                simp [step, onMessage, hc1, hc2, hp3] at h
            · simp [step, onMessage, hc1] at h
    | resolve j rr =>
        cases hp : s2.pending[j]? with
        | none => simp [step, onResolve, hp] at h
        | some idJ => simp [step, onResolve, hp] at h
    | reject i => simp [step, onReject] at h
    | reconnectFire =>
        by_cases hz : s2.pendingReconnects = 0
        · simp [step, onReconnectFire, hz] at h
        · simp [step, onReconnectFire, hz] at h
    | probeFire =>
        cases hp : s2.probeTimer with
        | none => simp [step, onProbeFire, hp] at h
        | some d =>
            by_cases hw : s2.wsLive = true
            · simp [step, onProbeFire, hp, hw] at h
            · simp [step, onProbeFire, hp, hw] at h
    | serverFire =>
        cases hp : s2.serverTimer with
        | none => simp [step, onServerFire, hp] at h
        | some d => simp [step, onServerFire, hp] at h
    | callClose =>
        cases hw : s2.wsLive with
        | true => simp [step, close, hw] at h
        | false => simp [step, close, hw] at h

/-- Witness for C8 at the open signal of `cfgA`. -/
theorem c8_intro_frame_exactly_once_per_open_witness :
    Out.send (Frame.intro "A1") ∈ (step cfgA initState Ev.sigOpen).2 ∧
    ((step cfgA initState Ev.sigOpen).2 = [Out.send (Frame.intro cfgA.agentName)] ∧
      (step cfgA initState Ev.sigOpen).1.probeTimer = some cfgA.heartCheckTime ∧
      (step cfgA initState Ev.sigOpen).1.serverTimer = none ∧
      (Frame.intro cfgA.agentName).wire =
        renderFlatObj " " (specIntroFields cfgA.agentName) ∧
      Ev.sigOpen = Ev.sigOpen ∧ "A1" = cfgA.agentName) :=
  ⟨by decide,
    c8_intro_frame_exactly_once_per_open cfgA initState initState Ev.sigOpen "A1"
      (by decide)⟩

/-- C9: the claim is right and the code is wrong.  The dispatch guard at
source line 566 uses the JS `in` operator, which consults the prototype
chain: a tool request whose unregistered `func_name` is an `Object.prototype`
property name (here `toString`) passes the guard, the tools branch runs
`funcMap["toString"](data.params)` and throws an uncaught TypeError at the
`.then` access — no silent drop.  The spec calls the silent ignore an
explicit design choice, so the own-key test is the evident intent and the
prototype-chain test a slip.  For an unregistered name that is not an
`Object.prototype` property (here `nope`) the frame is silently dropped as
the claim says, with no output and no state change beyond the heartbeat
reset/restart. -/
theorem c9_proto_name_throws_instead_of_drop :
    envToString.func_name ∉ cfgA.funcNames ∧
    (step cfgA initState (Ev.message (InMsg.envMsg envToString))).2 =
      [Out.uncaughtTypeError] ∧
    (step cfgA initState (Ev.message (InMsg.envMsg envToString))).1.pending =
      initState.pending ∧
    (step cfgA initState (Ev.message (InMsg.envMsg envUnknown))).2 = [] ∧
    (step cfgA initState (Ev.message (InMsg.envMsg envUnknown))).1 =
      heartStart cfgA (heartReset initState) := by
  decide

/-- C10: when an in-flight handler call rejects, nothing runs — the source
attaches no rejection continuation to the promise — so the step outputs
nothing (no response frame for that request identifier, no surfaced error)
and the call merely leaves the in-flight set; and since every tools_result
frame any event emits echoes an identifier that is in flight at that moment,
a request whose only in-flight record was rejected is never answered. -/
theorem c10_rejected_handler_never_answered (cfg : Config) (s : MState) (i : Nat)
    (ev : Ev) (idJson a r : String)
    (h : Out.send (Frame.toolsResult idJson a r) ∈ (step cfg s ev).2) :
    (step cfg s (Ev.reject i)).2 = [] ∧
    (step cfg s (Ev.reject i)).1 = { s with pending := s.pending.eraseIdx i } ∧
    idJson ∈ s.pending := by
  refine ⟨rfl, rfl, ?_⟩
  obtain ⟨j, rr, -, hp, -, -⟩ := toolsResult_only_from_resolve cfg s ev idJson a r h
  exact List.getElem?_mem hp

/-- Witness for C10 at a rejection in the one-call state `stPending`. -/
theorem c10_rejected_handler_never_answered_witness :
    Out.send (Frame.toolsResult "7" "A1" "\"ok\"") ∈
      (step cfgA stPending (Ev.resolve 0 "\"ok\"")).2 ∧
    ((step cfgA stPending (Ev.reject 0)).2 = [] ∧
      (step cfgA stPending (Ev.reject 0)).1 =
        { stPending with pending := stPending.pending.eraseIdx 0 } ∧
      "7" ∈ stPending.pending) :=
  ⟨by decide,
    c10_rejected_handler_never_answered cfgA stPending 0 (Ev.resolve 0 "\"ok\"")
      "7" "A1" "\"ok\"" (by decide)⟩

end WSManager
